import Mathlib

/-!
Shallow embedding of `src/data/src/setup_nba_lake.py` (an AWS data-lake
provisioning script) and proofs about its control flow, error handling,
serializer and storage-location invariants.

Remote services (S3, Glue, Athena, the sports-data HTTP API) are external
collaborators: each remote call's possible outcomes are an explicit inductive
parameter, and every function is the faithful translation of the Python
control flow (try/except structure, truthiness tests, loop shape) over those
outcomes.  Uncaught Python exceptions are modelled with `Except`.
-/

namespace NbaLake

/-! ## Query state machine (Athena query execution states) -/

/-- The query-execution states the script can observe from
`get_query_execution`, as listed in the spec's data model. -/
inductive QueryState where
  | SUBMITTED
  | RUNNING
  | SUCCEEDED
  | FAILED
  | CANCELLED
deriving DecidableEq, Repr

/-- The membership test on line 155 of the source:
`query_state in [SUCCEEDED, FAILED, CANCELLED]`. -/
def isTerminal : QueryState → Bool
  | .SUCCEEDED => true
  | .FAILED => true
  | .CANCELLED => true
  | _ => false

/-- The state string, as it would appear in the printed message. -/
def stateName : QueryState → String
  | .SUBMITTED => "SUBMITTED"
  | .RUNNING => "RUNNING"
  | .SUCCEEDED => "SUCCEEDED"
  | .FAILED => "FAILED"
  | .CANCELLED => "CANCELLED"

/-- The `while True` polling loop of `query_athena` (source lines 152-157).
`polls n` is the state returned by the (n+1)-th call to
`get_query_execution`; `fuel` bounds the number of iterations we unfold
(the Python loop has no bound, so termination is a theorem, not a
definition); `i` is the index of the next poll.  Returns the poll index at
which the loop breaks together with the state observed there, or `none` if
the loop is still running after `fuel` iterations. -/
def pollLoop (polls : Nat → QueryState) : Nat → Nat → Option (Nat × QueryState)
  | 0, _ => none
  | fuel + 1, i =>
    if isTerminal (polls i) then some (i, polls i)
    else pollLoop polls fuel (i + 1)

/-! ## Query orchestrator: `query_athena` (source lines 135-167) -/

/-- A result row, an ordered sequence of column values, as stored in
`result[ResultSet][Rows]`. -/
def Row := List String
deriving DecidableEq

/-- The observable outcome of one completed `query_athena` call:
the returned value, how many `get_query_execution` polls happened, how many
`get_query_results` calls happened, the terminal state the loop broke on
(`none` when submission already failed), and the failure line printed, if
any. -/
structure QAOutcome where
  result : Option (List Row)
  numPolls : Nat
  numFetches : Nat
  finalState : Option QueryState
  failLog : Option String
deriving DecidableEq

/-- `query_athena` (source lines 135-167).  `submitOk` is whether
`start_query_execution` returns normally (a `ClientError` there is caught on
line 165 and the function returns `None`); `polls` is the sequence of states
`get_query_execution` reports; `rows` is what `get_query_results` would
return.  Returns `none` when the polling loop is still running after `fuel`
iterations (the Python loop is unbounded). -/
def query_athena (submitOk : Bool) (polls : Nat → QueryState) (rows : List Row)
    (fuel : Nat) : Option QAOutcome :=
  if submitOk then
    match pollLoop polls fuel 0 with
    | none => none
    | some (j, st) =>
      if st = QueryState.SUCCEEDED then
        some ⟨some rows, j + 1, 1, some st, none⟩
      else
        some ⟨none, j + 1, 0, some st,
          some ("Query failed with state: " ++ stateName st)⟩
  else
    some ⟨none, 0, 0, none, some "Error while querying Athena"⟩

/-! ## External data source client: `fetch_nba_players` (source lines 55-67) -/

/-- A fetched record is a flat JSON object: named fields mapped to primitive
values (see the serializer section below). -/
inductive JVal where
  | jstr (s : List Char)
  | jint (n : Int)
  | jbool (b : Bool)
  | jnull
deriving DecidableEq

/-- A record: an ordered mapping of field names to values. -/
def Record := List (List Char × JVal)
deriving DecidableEq

/-- Uncaught Python exceptions the script can die with. -/
inductive PyExc where
  | requestException    -- transport failure raised by requests.get
  | missingSchema       -- requests.get(None): endpoint was not configured
deriving DecidableEq, Repr

/-- What the single HTTP request can come back with: a response with a
status code and a JSON body, or a transport-level failure (connection
refused, timeout, DNS, ...), which `requests.get` raises as an exception
that is not an `HTTPError`. -/
inductive HttpOutcome where
  | response (status : Nat) (body : List Record)
  | transport
deriving DecidableEq

/-- `requests` raises `HTTPError` from `raise_for_status` exactly for
status codes in [400, 600). -/
def raiseForStatus (status : Nat) : Bool :=
  decide (400 ≤ status) && decide (status < 600)

/-- `fetch_nba_players` (source lines 55-67).  The `try` block catches only
`requests.exceptions.HTTPError` (line 65): a 4xx/5xx status raised by
`raise_for_status` is caught, logged, and `None` is returned; a transport
failure, or `requests.get(None)` when the endpoint is unset, raises an
exception of a different class that propagates to the caller. -/
def fetch_nba_players (apiKey : Option String) (endpoint : Option String)
    (out : HttpOutcome) : Except PyExc (Option (List Record)) :=
  match endpoint with
  | none => Except.error PyExc.missingSchema
  | some _ =>
    match out with
    | .response status body =>
      if raiseForStatus status then Except.ok none
      else Except.ok (some body)
    | .transport => Except.error PyExc.requestException

/-! ## Storage and catalog provisioners (source lines 31-53, 93-133) -/

/-- Outcome of the `s3_client.create_bucket` remote call: success, or a
`ClientError` carrying a provider error code (for an existing bucket,
BucketAlreadyExists / BucketAlreadyOwnedByYou). -/
inductive S3CreateOutcome where
  | created
  | clientError (err : String)
deriving DecidableEq

/-- The body of `create_s3_bucket`'s `try` block (line 37): the remote call
either returns or raises a `ClientError`. -/
def create_bucket_call (out : S3CreateOutcome) : Except String Unit :=
  match out with
  | .created => Except.ok ()
  | .clientError e => Except.error e

/-- `create_s3_bucket` (source lines 31-40): the `ClientError` is caught on
line 39 and logged; the function always returns normally, yielding only its
printed line. -/
def create_s3_bucket (bucketName : String) (out : S3CreateOutcome) : String :=
  match create_bucket_call out with
  | Except.ok () => "Bucket " ++ bucketName ++ " created successfully."
  | Except.error e => "Error while creating bucket: " ++ e

/-- Outcome of a remote provisioning call whose caller catches every
exception (`except Exception`): success or an error message. -/
inductive ProviderOutcome where
  | ok
  | err (msg : String)
deriving DecidableEq

/-- `create_glue_database` (source lines 42-53): any exception is caught and
logged; always returns normally. -/
def create_glue_database (out : ProviderOutcome) : String :=
  match out with
  | .ok => "Glue database created successfully."
  | .err e => "Error creating Glue database: " ++ e

/-- `create_glue_table` (source lines 93-121): any exception is caught and
logged; always returns normally. -/
def create_glue_table (out : ProviderOutcome) : String :=
  match out with
  | .ok => "Glue table created successfully."
  | .err e => "Error creating Glue table: " ++ e

/-- `configure_athena` (source lines 123-133): any exception is caught and
logged; always returns normally. -/
def configure_athena (out : ProviderOutcome) : String :=
  match out with
  | .ok => "Athena output location configured successfully."
  | .err e => "Error configuring Athena: " ++ e

/-! ## Record serializer: `json.dumps` and
`convert_to_line_delimited_json` (source lines 69-72)

Text is modelled as `List Char`.  `json.dumps` is embedded for flat records
with its default options: `ensure_ascii=True` string escaping, separators
`", "` and `": "`. -/

/-- A lowercase hexadecimal digit, as used in `\uXXXX` escapes. -/
def hexDigit : Nat → Char
  | 0 => '0' | 1 => '1' | 2 => '2' | 3 => '3'
  | 4 => '4' | 5 => '5' | 6 => '6' | 7 => '7'
  | 8 => '8' | 9 => '9' | 10 => 'a' | 11 => 'b'
  | 12 => 'c' | 13 => 'd' | 14 => 'e' | _ => 'f'

/-- Four hex digits of a code unit below 0x10000. -/
def hex4 (n : Nat) : List Char :=
  [hexDigit (n / 4096 % 16), hexDigit (n / 256 % 16),
   hexDigit (n / 16 % 16), hexDigit (n % 16)]

/-- One character of a JSON string under `json.dumps`'s default
`ensure_ascii` encoder: the two-character short escapes, `\uXXXX` (with a
surrogate pair above 0xFFFF) for other control or non-ASCII characters,
and the character itself otherwise. -/
def escapeChar (c : Char) : List Char :=
  if c = '\\' then ['\\', '\\']
  else if c = '\x22' then ['\\', '\x22']
  else if c = '\n' then ['\\', 'n']
  else if c = '\t' then ['\\', 't']
  else if c = '\r' then ['\\', 'r']
  else if c.toNat = 8 then ['\\', 'b']
  else if c.toNat = 12 then ['\\', 'f']
  else if c.toNat < 32 || 127 < c.toNat then
    if c.toNat < 65536 then '\\' :: 'u' :: hex4 c.toNat
    else
      ('\\' :: 'u' :: hex4 (55296 + (c.toNat - 65536) / 1024)) ++
      ('\\' :: 'u' :: hex4 (56320 + (c.toNat - 65536) % 1024))
  else [c]

/-- A JSON string literal: quote, escaped characters, quote. -/
def dumpString (s : List Char) : List Char :=
  '\x22' :: (s.map escapeChar).flatten ++ ['\x22']

/-- Decimal digits of a natural number (most significant first). -/
def natDigits (n : Nat) : List Char :=
  if _h : n < 10 then [hexDigit n]
  else natDigits (n / 10) ++ [hexDigit (n % 10)]
decreasing_by exact Nat.div_lt_self (by omega) (by omega)

/-- Decimal rendering of an integer. -/
def intChars (n : Int) : List Char :=
  if n < 0 then '-' :: natDigits n.natAbs else natDigits n.natAbs

/-- A primitive JSON value under `json.dumps`. -/
def dumpJVal : JVal → List Char
  | .jstr s => dumpString s
  | .jint n => intChars n
  | .jbool true => ['t', 'r', 'u', 'e']
  | .jbool false => ['f', 'a', 'l', 's', 'e']
  | .jnull => ['n', 'u', 'l', 'l']

/-- One `"key": value` member of a JSON object (`": "` key separator). -/
def dumpPair (p : List Char × JVal) : List Char :=
  dumpString p.1 ++ ':' :: ' ' :: dumpJVal p.2

/-- `json.dumps(record)` for a flat record: an object with `", "` between
members. -/
def json_dumps (r : Record) : List Char :=
  '\x7b' :: List.intercalate [',', ' '] (r.map dumpPair) ++ ['\x7d']

/-- `convert_to_line_delimited_json` (source lines 69-72):
`"\n".join([json.dumps(record) for record in data])`. -/
def convert_to_line_delimited_json (data : List Record) : List Char :=
  List.intercalate ['\n'] (data.map json_dumps)

/-! ## Storage locations (source lines 14, 74-91, 109) -/

/-- The module-level `bucket_name` constant (source line 14). -/
def bucket_name : List Char := "bai-xu-sports-analytics-data-lake".toList

/-- The object key `upload_data_to_s3` writes to (source line 81). -/
def upload_file_key : List Char := "raw-data/nba_player_data.jsonl".toList

/-- The (Bucket, Key) pair `upload_data_to_s3` passes to `put_object`
(source lines 84-88), as a function of the bucket configuration. -/
def upload_target (bucket : List Char) : List Char × List Char :=
  (bucket, upload_file_key)

/-- The `Location` field of the Glue table's storage descriptor
(source line 109): the f-string `s3://` ++ bucket ++ `/raw-data/`. -/
def glue_table_location (bucket : List Char) : List Char :=
  "s3://".toList ++ bucket ++ "/raw-data/".toList

/-- The S3 URI naming a (bucket, key) storage location. -/
def s3_uri (bucket key : List Char) : List Char :=
  "s3://".toList ++ bucket ++ "/".toList ++ key

/-! ## Pipeline driver: `main` (source lines 170-189) -/

/-- The driver's states, in the fixed execution order of `main`. -/
inductive Step where
  | BUCKET
  | DATABASE
  | FETCH
  | UPLOAD
  | TABLE
  | QUERY_SETUP
  | QUERY_RUN
  | DONE
deriving DecidableEq, Repr

/-- Everything external a single run can observe: the configuration read at
startup and the outcome of each remote interaction. -/
structure Env where
  apiKey : Option String
  endpoint : Option String
  bucketOutcome : S3CreateOutcome
  dbOutcome : ProviderOutcome
  fetchOutcome : HttpOutcome
  uploadOutcome : ProviderOutcome
  tableOutcome : ProviderOutcome
  configureOutcome : ProviderOutcome
  submitOk : Bool
  polls : Nat → QueryState
  queryResults : List Row

/-- What `main` prints at the end (source lines 184-189): the results
header followed by each row, or the failure line. -/
inductive Report where
  | results (rows : List Row)
  | failed    -- prints: Failed to query Athena.
deriving DecidableEq

/-- How a run of `main` can end: normal completion with the executed step
trace and the final report, death by an uncaught exception after the traced
steps, or still inside the polling loop after `fuel` iterations. -/
inductive RunResult where
  | done (trace : List Step) (report : Report)
  | crashed (trace : List Step) (exc : PyExc)
  | outOfFuel (trace : List Step)
deriving DecidableEq

/-- Python truthiness of the fetch result (`if nba_data:` on line 176):
`None` and the empty list are falsy. -/
def truthy : Option (List Record) → Bool
  | none => false
  | some [] => false
  | some (_ :: _) => true

/-- `main` (source lines 170-189), with `fuel` bounding the polling loop.
Each step contributes its entry to the trace; `create_s3_bucket`,
`create_glue_database`, `upload_data_to_s3`, `create_glue_table` and
`configure_athena` swallow their errors and always fall through to the next
step; `fetch_nba_players` can raise an uncaught exception, which aborts the
run (nothing in `main` catches).  `upload_data_to_s3` runs only when the
fetched data is truthy.  `DONE` marks normal completion of the whole
driver. -/
def mainRun (env : Env) (fuel : Nat) : RunResult :=
  let t1 : List Step := [Step.BUCKET, Step.DATABASE]
  match fetch_nba_players env.apiKey env.endpoint env.fetchOutcome with
  | Except.error e => RunResult.crashed (t1 ++ [Step.FETCH]) e
  | Except.ok nba_data =>
    let t2 := t1 ++ [Step.FETCH]
    let t3 := if truthy nba_data then t2 ++ [Step.UPLOAD] else t2
    let t4 := t3 ++ [Step.TABLE, Step.QUERY_SETUP]
    match query_athena env.submitOk env.polls env.queryResults fuel with
    | none => RunResult.outOfFuel (t4 ++ [Step.QUERY_RUN])
    | some qa =>
      let t5 := t4 ++ [Step.QUERY_RUN]
      match qa.result with
      | some (r :: rs) => RunResult.done (t5 ++ [Step.DONE]) (Report.results (r :: rs))
      | some [] => RunResult.done (t5 ++ [Step.DONE]) Report.failed
      | none => RunResult.done (t5 ++ [Step.DONE]) Report.failed

/-- The steps a run executed, however it ended. -/
def traceOf : RunResult → List Step
  | .done t _ => t
  | .crashed t _ => t
  | .outOfFuel t => t

/-- The final report of a normally completed run. -/
def reportOf : RunResult → Option Report
  | .done _ r => some r
  | _ => none

/-- The step trace of a run of `main` that completes normally:
`UPLOAD` appears exactly when the fetched data was truthy. -/
def mainTrace (uploaded : Bool) : List Step :=
  [Step.BUCKET, Step.DATABASE, Step.FETCH] ++
    (if uploaded then [Step.UPLOAD] else []) ++
    [Step.TABLE, Step.QUERY_SETUP, Step.QUERY_RUN, Step.DONE]

/-- The report `main` prints from the value `query_athena` returned
(`if athena_results:` on line 184): only a non-`None`, non-empty row list
counts as success. -/
def reportFromQA (qa : QAOutcome) : Report :=
  match qa.result with
  | some (r :: rs) => Report.results (r :: rs)
  | some [] => Report.failed
  | none => Report.failed

/-- The spec's test stub: a poll sequence that reports RUNNING twice and
then SUCCEEDED. -/
def pollsRRS (n : Nat) : QueryState :=
  if n < 2 then QueryState.RUNNING else QueryState.SUCCEEDED

/-! ## Supporting lemmas -/

/-- Unfolding on positive fuel. -/
theorem pollLoop_succ (polls : Nat → QueryState) (fuel i : Nat) :
    pollLoop polls (fuel + 1) i =
      if isTerminal (polls i) then some (i, polls i)
      else pollLoop polls fuel (i + 1) := rfl

/-- If a terminal state shows up `d` polls after index `i`, the loop started
at `i` with `d + 1` units of fuel breaks at the first terminal poll at or
after `i`. -/
theorem pollLoop_finds_first (polls : Nat → QueryState) :
    ∀ (d i : Nat), isTerminal (polls (i + d)) = true →
      ∃ j, i ≤ j ∧ j ≤ i + d ∧
        pollLoop polls (d + 1) i = some (j, polls j) ∧
        isTerminal (polls j) = true ∧
        ∀ k, i ≤ k → k < j → isTerminal (polls k) = false := by
  intro d
  induction d with
  | zero =>
    intro i h
    simp only [Nat.add_zero] at h
    refine ⟨i, le_refl i, by omega, ?_, h, ?_⟩
    · simp [pollLoop, h]
    · intro k hik hki; omega
  | succ d ih =>
    intro i h
    by_cases h0 : isTerminal (polls i) = true
    · refine ⟨i, le_refl i, by omega, ?_, h0, ?_⟩
      · simp [pollLoop, h0]
      · intro k hik hki; omega
    · have h0' : isTerminal (polls i) = false := by
        cases hb : isTerminal (polls i) with
        | false => rfl
        | true => exact absurd hb h0
      have h' : isTerminal (polls ((i + 1) + d)) = true := by
        have : (i + 1) + d = i + (d + 1) := by omega
        rw [this]; exact h
      obtain ⟨j, hij, hjd, hloop, hterm, hfirst⟩ := ih (i + 1) h'
      refine ⟨j, by omega, by omega, ?_, hterm, ?_⟩
      · rw [pollLoop_succ, h0']
        simpa using hloop
      · intro k hik hkj
        rcases Nat.eq_or_lt_of_le hik with heq | hlt
        · rw [← heq]; exact h0'
        · exact hfirst k hlt hkj

/-- No hex digit is a newline. -/
theorem hexDigit_ne_newline (n : Nat) : hexDigit n ≠ '\n' := by
  unfold hexDigit
  split <;> decide

/-- `\uXXXX` escape bodies contain no newline. -/
theorem newline_not_mem_hex4 (n : Nat) : '\n' ∉ hex4 n := by
  intro h
  simp only [hex4, List.mem_cons, List.not_mem_nil, or_false] at h
  rcases h with h | h | h | h <;> exact hexDigit_ne_newline _ h.symm

/-- A `\uXXXX` escape contains no newline. -/
theorem newline_not_mem_uescape (n : Nat) : '\n' ∉ '\\' :: 'u' :: hex4 n := by
  intro h
  rcases List.mem_cons.mp h with h | h
  · exact (by decide : ('\n' : Char) ≠ '\\') h
  rcases List.mem_cons.mp h with h | h
  · exact (by decide : ('\n' : Char) ≠ 'u') h
  · exact newline_not_mem_hex4 n h

/-- The escaped form of any character contains no raw newline (the newline
itself becomes the two characters backslash-n). -/
theorem newline_not_mem_escapeChar (c : Char) : '\n' ∉ escapeChar c := by
  unfold escapeChar
  split_ifs with h1 h2 h3 h4 h5 h6 h7 h8 h9
  · decide
  · decide
  · decide
  · decide
  · decide
  · decide
  · decide
  · exact newline_not_mem_uescape _
  · intro h
    rcases List.mem_append.mp h with h | h <;> exact newline_not_mem_uescape _ h
  · intro h
    exact h3 (List.mem_singleton.mp h).symm

/-- A serialized JSON string contains no raw newline. -/
theorem newline_not_mem_dumpString (s : List Char) : '\n' ∉ dumpString s := by
  intro h
  rcases List.mem_cons.mp h with h | h
  · exact (by decide : ('\n' : Char) ≠ '\x22') h
  rcases List.mem_append.mp h with h | h
  · rcases List.mem_flatten.mp h with ⟨l, hl, hmem⟩
    rcases List.mem_map.mp hl with ⟨a, _, ha⟩
    exact newline_not_mem_escapeChar a (ha ▸ hmem)
  · exact (by decide : ('\n' : Char) ≠ '\x22') (List.mem_singleton.mp h)

/-- Decimal digit strings contain no newline. -/
theorem newline_not_mem_natDigits (n : Nat) : '\n' ∉ natDigits n := by
  induction n using Nat.strong_induction_on with
  | _ n ih =>
    rw [natDigits]
    split_ifs with h
    · intro hm
      simp only [List.mem_singleton] at hm
      exact hexDigit_ne_newline n hm.symm
    · intro hm
      rcases List.mem_append.mp hm with hm | hm
      · exact ih (n / 10) (Nat.div_lt_self (by omega) (by omega)) hm
      · simp only [List.mem_singleton] at hm
        exact hexDigit_ne_newline _ hm.symm

/-- Integer renderings contain no newline. -/
theorem newline_not_mem_intChars (n : Int) : '\n' ∉ intChars n := by
  unfold intChars
  split_ifs with h
  · intro hm
    rcases List.mem_cons.mp hm with hm | hm
    · exact (by decide : ('\n' : Char) ≠ '-') hm
    · exact newline_not_mem_natDigits _ hm
  · exact newline_not_mem_natDigits _

/-- A serialized primitive value contains no newline. -/
theorem newline_not_mem_dumpJVal (v : JVal) : '\n' ∉ dumpJVal v := by
  cases v with
  | jstr s => exact newline_not_mem_dumpString s
  | jint n => exact newline_not_mem_intChars n
  | jbool b => cases b <;> decide
  | jnull => decide

/-- One serialized object member contains no newline. -/
theorem newline_not_mem_dumpPair (p : List Char × JVal) : '\n' ∉ dumpPair p := by
  intro h
  simp only [dumpPair, List.mem_append, List.mem_cons] at h
  rcases h with h | h | h | h
  · exact newline_not_mem_dumpString _ h
  · exact (by decide : ('\n' : Char) ≠ ':') h
  · exact (by decide : ('\n' : Char) ≠ ' ') h
  · exact newline_not_mem_dumpJVal _ h

/-- `intercalate` on a two-or-more-element list peels one chunk and one
separator. -/
theorem intercalate_cons_cons (sep a b : List Char) (ls : List (List Char)) :
    List.intercalate sep (a :: b :: ls) = a ++ sep ++ List.intercalate sep (b :: ls) := by
  simp [List.intercalate, List.intersperse_cons_cons, List.append_assoc]

/-- If the separator and every chunk avoid a character, so does their
intercalation. -/
theorem not_mem_intercalate (x : Char) (sep : List Char) (hsep : x ∉ sep) :
    ∀ ls : List (List Char), (∀ l ∈ ls, x ∉ l) → x ∉ List.intercalate sep ls := by
  intro ls
  induction ls with
  | nil => intro _ h; simp [List.intercalate] at h
  | cons a tl ih =>
    intro hall h
    cases tl with
    | nil =>
      rw [show List.intercalate sep [a] = a by simp [List.intercalate]] at h
      exact hall a (by simp) h
    | cons b tl' =>
      rw [intercalate_cons_cons] at h
      rcases List.mem_append.mp h with h | h
      · rcases List.mem_append.mp h with h | h
        · exact hall a (by simp) h
        · exact hsep h
      · exact ih (fun l hl => hall l (List.mem_cons_of_mem _ hl)) h

/-- A full serialized record is one newline-free line. -/
theorem newline_not_mem_json_dumps (r : Record) : '\n' ∉ json_dumps r := by
  intro h
  rcases List.mem_cons.mp h with h | h
  · exact (by decide : ('\n' : Char) ≠ '\x7b') h
  rcases List.mem_append.mp h with h | h
  · refine not_mem_intercalate '\n' [',', ' '] (by decide) (r.map dumpPair) ?_ h
    intro l hl
    rcases List.mem_map.mp hl with ⟨p, _, hp⟩
    exact hp ▸ newline_not_mem_dumpPair p
  · exact (by decide : ('\n' : Char) ≠ '\x7d') (List.mem_singleton.mp h)

/-- An ended loop with non-terminal states before the break: the break state
is one of the designated non-terminal states. -/
theorem nonterminal_cases (st : QueryState) (h : isTerminal st = false) :
    st = QueryState.SUBMITTED ∨ st = QueryState.RUNNING := by
  cases st <;> simp_all [isTerminal]

/-- A state passing the break test is one of the three terminal states. -/
theorem terminal_cases (st : QueryState) (h : isTerminal st = true) :
    st = QueryState.SUCCEEDED ∨ st = QueryState.FAILED ∨ st = QueryState.CANCELLED := by
  cases st <;> simp_all [isTerminal]

/-- Once a terminal state is polled at index `N`, `query_athena` completes
with `N + 1` units of loop fuel (and completes immediately when submission
failed). -/
theorem query_athena_completes (submitOk : Bool) (polls : Nat → QueryState)
    (rows : List Row) (N : Nat) (h : isTerminal (polls N) = true) :
    ∃ qa, query_athena submitOk polls rows (N + 1) = some qa := by
  cases submitOk with
  | false => exact ⟨_, rfl⟩
  | true =>
    obtain ⟨j, _, _, hloop, _, _⟩ :=
      pollLoop_finds_first polls N 0 (by simpa using h)
    unfold query_athena
    rw [if_pos rfl, hloop]
    dsimp only
    by_cases hst : polls j = QueryState.SUCCEEDED
    · exact ⟨_, by rw [if_pos hst]⟩
    · exact ⟨_, by rw [if_neg hst]⟩

/-- When the fetch returns normally and the query completes, `main` runs to
`DONE` with the canonical trace, and reports from the query result. -/
theorem mainRun_eq_done (env : Env) (fuel : Nat) (d : Option (List Record))
    (qa : QAOutcome)
    (hf : fetch_nba_players env.apiKey env.endpoint env.fetchOutcome = Except.ok d)
    (hq : query_athena env.submitOk env.polls env.queryResults fuel = some qa) :
    mainRun env fuel = RunResult.done (mainTrace (truthy d)) (reportFromQA qa) := by
  unfold mainRun
  rw [hf]
  dsimp only
  rw [hq]
  dsimp only
  cases htr : truthy d <;>
    · unfold reportFromQA
      rcases qa.result with _ | ⟨_ | ⟨r, rs⟩⟩ <;> simp [mainTrace, htr]

/-- Every run of `main`, however it ends, has executed the bucket step, the
database step and the fetch step, in that order, first. -/
theorem mainRun_trace_prefix (env : Env) (fuel : Nat) :
    ∃ rest, traceOf (mainRun env fuel) =
      Step.BUCKET :: Step.DATABASE :: Step.FETCH :: rest := by
  unfold mainRun
  cases hf : fetch_nba_players env.apiKey env.endpoint env.fetchOutcome with
  | error e => exact ⟨[], rfl⟩
  | ok d =>
    dsimp only
    cases hq : query_athena env.submitOk env.polls env.queryResults fuel with
    | none => cases htr : truthy d <;> simp [traceOf, htr]
    | some qa =>
      obtain ⟨res, np, nf, fs, fl⟩ := qa
      cases htr : truthy d <;>
        rcases res with _ | ⟨_ | ⟨r, rs⟩⟩ <;> simp [traceOf, htr]

/-- If the first poll already reports FAILED, a completed `query_athena`
returned no results. -/
theorem query_athena_failed_first_poll (submitOk : Bool) (polls : Nat → QueryState)
    (rows : List Row) (fuel : Nat) (qa : QAOutcome)
    (h0 : polls 0 = QueryState.FAILED)
    (hqa : query_athena submitOk polls rows fuel = some qa) :
    qa.result = none := by
  cases submitOk with
  | false =>
    unfold query_athena at hqa
    rw [if_neg (by simp)] at hqa
    injection hqa with h
    rw [← h]
  | true =>
    unfold query_athena at hqa
    rw [if_pos rfl] at hqa
    cases fuel with
    | zero => exact absurd hqa (by simp [pollLoop])
    | succ f =>
      rw [pollLoop_succ, h0] at hqa
      simp only [isTerminal, if_true] at hqa
      rw [if_neg (by simp)] at hqa
      injection hqa with h
      rw [← h]

/-- A completed `query_athena` either returned the fetched row list or
`None`. -/
theorem query_athena_result_shape (submitOk : Bool) (polls : Nat → QueryState)
    (rows : List Row) (fuel : Nat) (qa : QAOutcome)
    (hqa : query_athena submitOk polls rows fuel = some qa) :
    qa.result = some rows ∨ qa.result = none := by
  cases submitOk with
  | false =>
    unfold query_athena at hqa
    rw [if_neg (by simp)] at hqa
    injection hqa with h
    right; rw [← h]
  | true =>
    unfold query_athena at hqa
    rw [if_pos rfl] at hqa
    cases hloop : pollLoop polls fuel 0 with
    | none => rw [hloop] at hqa; exact absurd hqa (by simp)
    | some js =>
      obtain ⟨j, st⟩ := js
      rw [hloop] at hqa
      dsimp only at hqa
      by_cases hs : st = QueryState.SUCCEEDED
      · rw [if_pos hs] at hqa
        injection hqa with h
        left; rw [← h]
      · rw [if_neg hs] at hqa
        injection hqa with h
        right; rw [← h]

/-! ## Claim theorems -/

/-- C1: after submission the state is polled repeatedly; the loop continues
for every poll that returns SUBMITTED or RUNNING and breaks at the first
poll returning SUCCEEDED, FAILED or CANCELLED; if some poll eventually
returns a terminal state, the loop terminates (here: with fuel covering
that poll, the fuelled unfolding of the unbounded `while True` loop
completes). -/
theorem query_polling_loop_terminates (polls : Nat → QueryState) (N : Nat)
    (h : isTerminal (polls N) = true) :
    ∃ j, j ≤ N ∧
      pollLoop polls (N + 1) 0 = some (j, polls j) ∧
      (polls j = QueryState.SUCCEEDED ∨ polls j = QueryState.FAILED ∨
        polls j = QueryState.CANCELLED) ∧
      ∀ k, k < j → (polls k = QueryState.SUBMITTED ∨ polls k = QueryState.RUNNING) := by
  obtain ⟨j, _, hj, hloop, hterm, hfirst⟩ :=
    pollLoop_finds_first polls N 0 (by simpa using h)
  exact ⟨j, by omega, hloop, terminal_cases _ hterm,
    fun k hk => nonterminal_cases _ (hfirst k (Nat.zero_le k) hk)⟩

/-- C1 witness: a poll sequence that is RUNNING twice and then SUCCEEDED
terminates the loop. -/
theorem query_polling_loop_terminates_witness :
    ∃ j, j ≤ 2 ∧
      pollLoop pollsRRS 3 0 = some (j, pollsRRS j) ∧
      (pollsRRS j = QueryState.SUCCEEDED ∨ pollsRRS j = QueryState.FAILED ∨
        pollsRRS j = QueryState.CANCELLED) ∧
      ∀ k, k < j → (pollsRRS k = QueryState.SUBMITTED ∨ pollsRRS k = QueryState.RUNNING) :=
  query_polling_loop_terminates pollsRRS 2 (by decide)

/-- C2: for every completed `query_athena` run whose loop ended in a
terminal state, `get_query_results` is called exactly once iff that state
is SUCCEEDED, in which case the ordered row list is returned; on FAILED or
CANCELLED no results are fetched, the state is surfaced in the printed
line, and `None` is returned.  For the spec's stub (RUNNING, RUNNING,
SUCCEEDED) the fetch happens exactly once, after the loop has polled three
times, hence in particular after the second poll. -/
theorem query_results_fetched_iff_succeeded :
    (∀ (polls : Nat → QueryState) (rows : List Row) (fuel : Nat)
        (qa : QAOutcome) (st : QueryState),
      query_athena true polls rows fuel = some qa →
      qa.finalState = some st →
      ((qa.numFetches = 1 ↔ st = QueryState.SUCCEEDED) ∧
       (st = QueryState.SUCCEEDED → qa.result = some rows) ∧
       ((st = QueryState.FAILED ∨ st = QueryState.CANCELLED) →
         qa.numFetches = 0 ∧ qa.result = none ∧
         qa.failLog = some ("Query failed with state: " ++ stateName st)))) ∧
    (∀ rows : List Row,
      query_athena true pollsRRS rows 3 =
        some ⟨some rows, 3, 1, some QueryState.SUCCEEDED, none⟩) := by
  constructor
  · intro polls rows fuel qa st hqa hst
    unfold query_athena at hqa
    rw [if_pos rfl] at hqa
    cases hloop : pollLoop polls fuel 0 with
    | none => rw [hloop] at hqa; exact absurd hqa (by simp)
    | some js =>
      obtain ⟨j, st'⟩ := js
      rw [hloop] at hqa
      dsimp only at hqa
      by_cases hs : st' = QueryState.SUCCEEDED
      · rw [if_pos hs] at hqa
        injection hqa with h
        subst h
        simp only [QAOutcome.finalState] at hst
        injection hst with hst
        subst hst
        subst hs
        refine ⟨by simp, fun _ => rfl, ?_⟩
        rintro (h | h) <;> exact absurd h (by decide)
      · rw [if_neg hs] at hqa
        injection hqa with h
        subst h
        simp only [QAOutcome.finalState] at hst
        injection hst with hst
        subst hst
        exact ⟨by simp [hs], fun h => absurd h hs, fun _ => ⟨rfl, rfl, rfl⟩⟩
  · intro rows
    rfl

/-- C2 witness: at the stub and an empty row list, the fetch-count
equivalence holds with the terminal state SUCCEEDED. -/
theorem query_results_fetched_iff_succeeded_witness :
    (⟨some [], 3, 1, some QueryState.SUCCEEDED, none⟩ : QAOutcome).numFetches = 1 ↔
      QueryState.SUCCEEDED = QueryState.SUCCEEDED :=
  (query_results_fetched_iff_succeeded.1 pollsRRS [] 3
    ⟨some [], 3, 1, some QueryState.SUCCEEDED, none⟩ QueryState.SUCCEEDED rfl rfl).1

/-- C3 counterexample: a run whose fetch step fails with a transport error
does not reach DONE — `main` dies with the uncaught exception right after
the fetch step, so the pipeline does not always complete for every
combination of step outcomes. -/
theorem pipeline_always_done_counterexample :
    mainRun
      ⟨some "key", some "endpoint", S3CreateOutcome.created, ProviderOutcome.ok,
        HttpOutcome.transport, ProviderOutcome.ok, ProviderOutcome.ok,
        ProviderOutcome.ok, true, fun _ => QueryState.SUCCEEDED, []⟩ 1 =
      RunResult.crashed [Step.BUCKET, Step.DATABASE, Step.FETCH]
        PyExc.requestException ∧
    Step.DONE ∉ traceOf (mainRun
      ⟨some "key", some "endpoint", S3CreateOutcome.created, ProviderOutcome.ok,
        HttpOutcome.transport, ProviderOutcome.ok, ProviderOutcome.ok,
        ProviderOutcome.ok, true, fun _ => QueryState.SUCCEEDED, []⟩ 1) :=
  ⟨rfl, by decide⟩

/-- C3 (amended): for every combination of step outcomes in which the fetch
step returns normally (it succeeds, or fails with an HTTP-status error that
`fetch_nba_players` converts to no data), the driver executes the fixed
step sequence to completion and ends at DONE; and if the query's first poll
reports FAILED, the pipeline reports failure (zero results) and still
reaches DONE.  A fetch transport failure, by contrast, propagates and
aborts the run (see the counterexample). -/
theorem pipeline_reaches_done (env : Env) (N : Nat) (d : Option (List Record))
    (hf : fetch_nba_players env.apiKey env.endpoint env.fetchOutcome = Except.ok d)
    (ht : isTerminal (env.polls N) = true) :
    (∃ rep, mainRun env (N + 1) = RunResult.done (mainTrace (truthy d)) rep) ∧
    (mainTrace (truthy d)).getLast? = some Step.DONE ∧
    (env.polls 0 = QueryState.FAILED →
      mainRun env (N + 1) = RunResult.done (mainTrace (truthy d)) Report.failed) := by
  obtain ⟨qa, hqa⟩ := query_athena_completes env.submitOk env.polls env.queryResults N ht
  have hdone := mainRun_eq_done env (N + 1) d qa hf hqa
  refine ⟨⟨_, hdone⟩, by cases truthy d <;> rfl, ?_⟩
  intro h0
  have hres := query_athena_failed_first_poll env.submitOk env.polls
    env.queryResults (N + 1) qa h0 hqa
  have hrep : reportFromQA qa = Report.failed := by
    unfold reportFromQA
    rw [hres]
  rw [hrep] at hdone
  exact hdone

/-- C3 witness: with a fetch that returns an empty collection and a first
poll of FAILED, the run completes at DONE reporting failure. -/
theorem pipeline_reaches_done_witness :
    mainRun
      ⟨some "key", some "endpoint", S3CreateOutcome.created, ProviderOutcome.ok,
        HttpOutcome.response 200 [], ProviderOutcome.ok, ProviderOutcome.ok,
        ProviderOutcome.ok, true, fun _ => QueryState.FAILED, []⟩ 1 =
      RunResult.done (mainTrace false) Report.failed :=
  (pipeline_reaches_done
    ⟨some "key", some "endpoint", S3CreateOutcome.created, ProviderOutcome.ok,
      HttpOutcome.response 200 [], ProviderOutcome.ok, ProviderOutcome.ok,
      ProviderOutcome.ok, true, fun _ => QueryState.FAILED, []⟩
    0 (some []) rfl rfl).2.2 rfl

/-- C4 counterexample: a transport failure is not converted into a no-data
outcome; `fetch_nba_players` propagates it as an exception and the pipeline
aborts instead of continuing with ingestion skipped. -/
theorem fetch_transport_counterexample :
    fetch_nba_players (some "key") (some "endpoint") HttpOutcome.transport =
      Except.error PyExc.requestException ∧
    mainRun
      ⟨some "key", some "endpoint", S3CreateOutcome.created, ProviderOutcome.ok,
        HttpOutcome.transport, ProviderOutcome.ok, ProviderOutcome.ok,
        ProviderOutcome.ok, true, fun _ => QueryState.SUCCEEDED, []⟩ 1 =
      RunResult.crashed [Step.BUCKET, Step.DATABASE, Step.FETCH]
        PyExc.requestException :=
  ⟨rfl, rfl⟩

/-- C4 (amended): for every response with a 4xx or 5xx status the client
returns a no-data outcome instead of raising, the caller treats the fetch
as having produced no data, the upload step is skipped and the pipeline
still completes; a transport failure, however, is not caught: it
propagates and aborts the run right after the fetch step. -/
theorem fetch_http_error_recovered_transport_propagates :
    ∀ (k : Option String) (url : String) (status : Nat) (body : List Record),
      400 ≤ status → status < 600 →
      fetch_nba_players k (some url) (HttpOutcome.response status body) =
        Except.ok none ∧
      (∀ (env : Env) (N : Nat),
        env.apiKey = k → env.endpoint = some url →
        env.fetchOutcome = HttpOutcome.response status body →
        isTerminal (env.polls N) = true →
        ∃ rep, mainRun env (N + 1) = RunResult.done (mainTrace false) rep) ∧
      (∀ (env : Env) (fuel : Nat),
        env.endpoint = some url → env.fetchOutcome = HttpOutcome.transport →
        mainRun env fuel =
          RunResult.crashed [Step.BUCKET, Step.DATABASE, Step.FETCH]
            PyExc.requestException) := by
  intro k url status body h4 h6
  have hfetch : fetch_nba_players k (some url) (HttpOutcome.response status body) =
      Except.ok none := by
    unfold fetch_nba_players
    dsimp only
    rw [if_pos (show raiseForStatus status = true by
      unfold raiseForStatus; simp [h4, h6])]
  refine ⟨hfetch, ?_, ?_⟩
  · intro env N hk hu hout ht
    obtain ⟨qa, hqa⟩ :=
      query_athena_completes env.submitOk env.polls env.queryResults N ht
    have hf' : fetch_nba_players env.apiKey env.endpoint env.fetchOutcome =
        Except.ok none := by rw [hk, hu, hout]; exact hfetch
    exact ⟨_, mainRun_eq_done env (N + 1) none qa hf' hqa⟩
  · intro env fuel hu hout
    unfold mainRun
    rw [show fetch_nba_players env.apiKey env.endpoint env.fetchOutcome =
        Except.error PyExc.requestException by rw [hu, hout]; rfl]
    rfl

/-- C4 witness: a 404 response is converted to a no-data return. -/
theorem fetch_http_error_recovered_witness :
    (400 ≤ 404 ∧ 404 < 600) ∧
    fetch_nba_players (some "key") (some "endpoint")
      (HttpOutcome.response 404 []) = Except.ok none :=
  ⟨⟨by decide, by decide⟩,
    (fetch_http_error_recovered_transport_propagates (some "key") "endpoint"
      404 [] (by decide) (by decide)).1⟩

/-- C5 counterexample: with the API credential absent the program does not
halt before the remote calls — the bucket-creation step executes and the
whole run completes normally (the missing key leads at most to an HTTP 401,
which the fetch converts to no data). -/
theorem missing_credential_halts_counterexample :
    (⟨none, some "endpoint", S3CreateOutcome.created, ProviderOutcome.ok,
        HttpOutcome.response 401 [], ProviderOutcome.ok, ProviderOutcome.ok,
        ProviderOutcome.ok, true, fun _ => QueryState.FAILED, []⟩ : Env).apiKey = none ∧
    Step.BUCKET ∈ traceOf (mainRun
      ⟨none, some "endpoint", S3CreateOutcome.created, ProviderOutcome.ok,
        HttpOutcome.response 401 [], ProviderOutcome.ok, ProviderOutcome.ok,
        ProviderOutcome.ok, true, fun _ => QueryState.FAILED, []⟩ 1) ∧
    mainRun
      ⟨none, some "endpoint", S3CreateOutcome.created, ProviderOutcome.ok,
        HttpOutcome.response 401 [], ProviderOutcome.ok, ProviderOutcome.ok,
        ProviderOutcome.ok, true, fun _ => QueryState.FAILED, []⟩ 1 =
      RunResult.done (mainTrace false) Report.failed :=
  ⟨rfl, by decide, rfl⟩

/-- C5 (amended): the absence of the credential or of the endpoint is never
checked: the bucket and database steps execute (remote calls are made)
regardless; an absent endpoint then kills the fetch step with an uncaught
exception, after those remote calls; an absent credential alone is only
logged and the run proceeds. -/
theorem missing_config_not_checked (env : Env) (fuel : Nat)
    (h : env.apiKey = none ∨ env.endpoint = none) :
    (Step.BUCKET ∈ traceOf (mainRun env fuel) ∧
     Step.DATABASE ∈ traceOf (mainRun env fuel)) ∧
    (env.endpoint = none →
      mainRun env fuel =
        RunResult.crashed [Step.BUCKET, Step.DATABASE, Step.FETCH]
          PyExc.missingSchema) := by
  obtain ⟨rest, hr⟩ := mainRun_trace_prefix env fuel
  refine ⟨⟨by rw [hr]; simp, by rw [hr]; simp⟩, ?_⟩
  intro he
  unfold mainRun
  rw [show fetch_nba_players env.apiKey env.endpoint env.fetchOutcome =
      Except.error PyExc.missingSchema by rw [he]; rfl]
  rfl

/-- C5 witness: with the credential unset, the bucket step still runs. -/
theorem missing_config_not_checked_witness :
    Step.BUCKET ∈ traceOf (mainRun
      ⟨none, some "endpoint", S3CreateOutcome.created, ProviderOutcome.ok,
        HttpOutcome.response 401 [], ProviderOutcome.ok, ProviderOutcome.ok,
        ProviderOutcome.ok, true, fun _ => QueryState.FAILED, []⟩ 1) :=
  ((missing_config_not_checked
    ⟨none, some "endpoint", S3CreateOutcome.created, ProviderOutcome.ok,
      HttpOutcome.response 401 [], ProviderOutcome.ok, ProviderOutcome.ok,
      ProviderOutcome.ok, true, fun _ => QueryState.FAILED, []⟩ 1 (Or.inl rfl)).1).1

/-- C6: whenever the fetch produced no usable data (an empty collection or
no data at all — both falsy), the upload step is never part of the run,
yet the table, query-setup and query-run steps all still execute, and the
run completes. -/
theorem empty_fetch_skips_upload_only (env : Env) (N : Nat)
    (d : Option (List Record))
    (hf : fetch_nba_players env.apiKey env.endpoint env.fetchOutcome = Except.ok d)
    (hempty : truthy d = false)
    (ht : isTerminal (env.polls N) = true) :
    (∃ rep, mainRun env (N + 1) = RunResult.done (mainTrace false) rep) ∧
    Step.UPLOAD ∉ mainTrace false ∧
    Step.TABLE ∈ mainTrace false ∧
    Step.QUERY_SETUP ∈ mainTrace false ∧
    Step.QUERY_RUN ∈ mainTrace false := by
  obtain ⟨qa, hqa⟩ :=
    query_athena_completes env.submitOk env.polls env.queryResults N ht
  have hdone := mainRun_eq_done env (N + 1) d qa hf hqa
  rw [hempty] at hdone
  exact ⟨⟨_, hdone⟩, by decide, by decide, by decide, by decide⟩

/-- C6 witness: a 200 response with an empty collection skips upload while
the later steps still run. -/
theorem empty_fetch_skips_upload_only_witness :
    (∃ rep, mainRun
      ⟨some "key", some "endpoint", S3CreateOutcome.created, ProviderOutcome.ok,
        HttpOutcome.response 200 [], ProviderOutcome.ok, ProviderOutcome.ok,
        ProviderOutcome.ok, true, fun _ => QueryState.SUCCEEDED, []⟩ 1 =
      RunResult.done (mainTrace false) rep) ∧
    Step.UPLOAD ∉ mainTrace false ∧
    Step.TABLE ∈ mainTrace false ∧
    Step.QUERY_SETUP ∈ mainTrace false ∧
    Step.QUERY_RUN ∈ mainTrace false :=
  empty_fetch_skips_upload_only
    ⟨some "key", some "endpoint", S3CreateOutcome.created, ProviderOutcome.ok,
      HttpOutcome.response 200 [], ProviderOutcome.ok, ProviderOutcome.ok,
      ProviderOutcome.ok, true, fun _ => QueryState.SUCCEEDED, []⟩
    0 (some []) rfl rfl rfl

/-- C7: when the bucket-creation call fails with a ClientError (in
particular because the bucket already exists), `create_s3_bucket` catches
it, produces only its log line and returns normally — it is a total
function into its printed output — and every run proceeds to the
database step next. -/
theorem bucket_already_exists_continues (bucketName err : String) (env : Env)
    (fuel : Nat) (hb : env.bucketOutcome = S3CreateOutcome.clientError err) :
    create_s3_bucket bucketName (S3CreateOutcome.clientError err) =
      "Error while creating bucket: " ++ err ∧
    create_bucket_call env.bucketOutcome = Except.error err ∧
    Step.DATABASE ∈ traceOf (mainRun env fuel) := by
  obtain ⟨rest, hr⟩ := mainRun_trace_prefix env fuel
  exact ⟨rfl, by rw [hb]; rfl, by rw [hr]; simp⟩

/-- C7 witness: the already-exists ClientError at a concrete run. -/
theorem bucket_already_exists_continues_witness :
    create_s3_bucket "bai-xu-sports-analytics-data-lake"
      (S3CreateOutcome.clientError "BucketAlreadyOwnedByYou") =
      "Error while creating bucket: " ++ "BucketAlreadyOwnedByYou" :=
  (bucket_already_exists_continues "bai-xu-sports-analytics-data-lake"
    "BucketAlreadyOwnedByYou"
    ⟨some "key", some "endpoint",
      S3CreateOutcome.clientError "BucketAlreadyOwnedByYou", ProviderOutcome.ok,
      HttpOutcome.response 200 [], ProviderOutcome.ok, ProviderOutcome.ok,
      ProviderOutcome.ok, true, fun _ => QueryState.SUCCEEDED, []⟩ 1 rfl).1

/-- C8: the serializer is a pure function; on N records it produces the
intercalation of the N independent serializations with a single newline
separator and no trailing separator — splitting the payload back on
newlines recovers exactly the N serialized records — and on the empty
collection it produces the empty payload. -/
theorem serializer_line_structure (data : List Record) :
    (data = [] → convert_to_line_delimited_json data = []) ∧
    (data ≠ [] →
      (convert_to_line_delimited_json data).splitOn '\n' = data.map json_dumps ∧
      ((convert_to_line_delimited_json data).splitOn '\n').length = data.length) := by
  constructor
  · intro h; subst h; rfl
  · intro hne
    have hsplit : (convert_to_line_delimited_json data).splitOn '\n' =
        data.map json_dumps := by
      unfold convert_to_line_delimited_json
      refine List.splitOn_intercalate (data.map json_dumps) '\n' ?_ ?_
      · intro l hl
        rcases List.mem_map.mp hl with ⟨r, _, hr⟩
        exact hr ▸ newline_not_mem_json_dumps r
      · simpa using hne
    exact ⟨hsplit, by rw [hsplit, List.length_map]⟩

/-- C8 witness: two concrete records produce exactly their two serialized
lines. -/
theorem serializer_line_structure_witness :
    ([[(['a'], JVal.jint 1)], []] : List Record) ≠ [] ∧
    (convert_to_line_delimited_json [[(['a'], JVal.jint 1)], []]).splitOn '\n' =
      ([[(['a'], JVal.jint 1)], []] : List Record).map json_dumps :=
  ⟨by decide, ((serializer_line_structure [[(['a'], JVal.jint 1)], []]).2 (by decide)).1⟩

/-- C9 counterexample: the Location field of the Glue table is the
directory URI s3 colon-slash-slash bucket /raw-data/, which is not equal to
the full location the uploader writes (bucket plus key
raw-data/nba_player_data.jsonl) — they differ by the object file name. -/
theorem table_location_equals_upload_counterexample :
    glue_table_location bucket_name ≠
      s3_uri (upload_target bucket_name).1 (upload_target bucket_name).2 := by
  decide

/-- C9 (amended): both locations are derived from the same bucket
configuration: the uploader writes to the same bucket, at a key whose full
URI extends the table's Location by exactly the object file name, so the
table's Location is the directory prefix of the uploaded object's
location (rather than being equal to it). -/
theorem table_location_prefix_of_upload (bucket : List Char) :
    (upload_target bucket).1 = bucket ∧
    s3_uri (upload_target bucket).1 (upload_target bucket).2 =
      glue_table_location bucket ++ "nba_player_data.jsonl".toList ∧
    glue_table_location bucket <+:
      s3_uri (upload_target bucket).1 (upload_target bucket).2 := by
  have heq : s3_uri (upload_target bucket).1 (upload_target bucket).2 =
      glue_table_location bucket ++ "nba_player_data.jsonl".toList := by
    simp only [s3_uri, glue_table_location, upload_target, upload_file_key,
      List.append_assoc]
    congr 2
  exact ⟨rfl, heq, ⟨"nba_player_data.jsonl".toList, heq.symm⟩⟩

/-- C10: when the query run returned an empty result collection — whether
the query SUCCEEDED with zero rows, ended FAILED or CANCELLED (returning
None), or the submission itself failed — the driver prints the same
failure report: an empty successful result set is indistinguishable at the
driver level from a failed query. -/
theorem empty_result_reported_as_failure (env : Env) (N : Nat)
    (d : Option (List Record))
    (hf : fetch_nba_players env.apiKey env.endpoint env.fetchOutcome = Except.ok d)
    (hres : env.queryResults = []) :
    (isTerminal (env.polls N) = true →
      mainRun env (N + 1) = RunResult.done (mainTrace (truthy d)) Report.failed) ∧
    (env.submitOk = false →
      ∀ fuel, mainRun env fuel =
        RunResult.done (mainTrace (truthy d)) Report.failed) := by
  constructor
  · intro ht
    obtain ⟨qa, hqa⟩ :=
      query_athena_completes env.submitOk env.polls env.queryResults N ht
    have hdone := mainRun_eq_done env (N + 1) d qa hf hqa
    have hrep : reportFromQA qa = Report.failed := by
      rcases query_athena_result_shape env.submitOk env.polls env.queryResults
          (N + 1) qa hqa with hsh | hsh
      · unfold reportFromQA
        rw [hsh, hres]
      · unfold reportFromQA
        rw [hsh]
    rw [hrep] at hdone
    exact hdone
  · intro hs fuel
    have hqa : query_athena env.submitOk env.polls env.queryResults fuel =
        some ⟨none, 0, 0, none, some "Error while querying Athena"⟩ := by
      rw [hs]; rfl
    have hdone := mainRun_eq_done env fuel d _ hf hqa
    rw [show reportFromQA ⟨none, 0, 0, none,
      some "Error while querying Athena"⟩ = Report.failed from rfl] at hdone
    exact hdone

/-- C10 witness: a SUCCEEDED query whose result set is empty yields the
failure report. -/
theorem empty_result_reported_as_failure_witness :
    mainRun
      ⟨some "key", some "endpoint", S3CreateOutcome.created, ProviderOutcome.ok,
        HttpOutcome.response 200 [], ProviderOutcome.ok, ProviderOutcome.ok,
        ProviderOutcome.ok, true, fun _ => QueryState.SUCCEEDED, []⟩ 1 =
      RunResult.done (mainTrace false) Report.failed :=
  (empty_result_reported_as_failure
    ⟨some "key", some "endpoint", S3CreateOutcome.created, ProviderOutcome.ok,
      HttpOutcome.response 200 [], ProviderOutcome.ok, ProviderOutcome.ok,
      ProviderOutcome.ok, true, fun _ => QueryState.SUCCEEDED, []⟩
    0 (some []) rfl rfl).1 rfl
